import Mathlib

/-!
# Verification of the multi-tenant SEO auditing service

Shallow embedding of the quota/billing engine, credential handling, crawler
and analyzer of the `seo-service` repository, together with theorems settling
the frozen claims about its specification.

Conventions of the embedding:
* SQLite tables become lists of records; one `DB` record bundles the tables.
* `datetime` instants are modelled at day granularity as `Date`
  (year/month/day); ISO-8601 parsing/printing is the identity on `Date`, and
  comparison of ISO strings coincides with the `Date` order used here.
* `uuid4` / `secrets.token_urlsafe` randomness is externalized: fresh
  identifiers and freshly generated credentials are explicit arguments.
* Python exceptions are modelled with `Except` / an `Option String` error
  component; mutations already committed before an exception are kept, as
  each `execute_query` call commits separately in the source.
* `hashlib.sha256(x).hexdigest()` is modelled by the injective tagging map
  `hash_api_key`; the claims depend only on the digest being a deterministic
  one-way map that differs from its input, not on its actual value.
-/

/-- A calendar date (the service stores ISO timestamps; the claims only need
day granularity). -/
structure Date where
  year : Nat
  month : Nat
  day : Nat
deriving Repr, DecidableEq

/-- Python `calendar.isleap` / the Gregorian leap rule used by
`calendar.monthrange`. -/
def isLeapYear (y : Nat) : Bool :=
  (y % 4 == 0 && y % 100 != 0) || (y % 400 == 0)

/-- Number of days in a month, as returned by `calendar.monthrange(y, m)[1]`. -/
def monthrange (y m : Nat) : Nat :=
  if m == 2 then (if isLeapYear y then 29 else 28)
  else if m == 4 || m == 6 || m == 9 || m == 11 then 30
  else 31

/-- Days since the civil epoch 1970-01-01 (standard days-from-civil
computation); gives the order on dates and supports the 90-day retention
arithmetic (`now - timedelta(days=90)`). -/
def Date.toDays (d : Date) : Int :=
  let y : Int := if d.month ≤ 2 then (d.year : Int) - 1 else (d.year : Int)
  let era : Int := (if y ≥ 0 then y else y - 399) / 400
  let yoe : Int := y - era * 400
  let m : Int := (d.month : Int)
  let doy : Int := (153 * (if m > 2 then m - 3 else m + 9) + 2) / 5 + (d.day : Int) - 1
  let doe : Int := yoe * 365 + yoe / 4 - yoe / 100 + doy
  era * 146097 + doe - 719468

/-- `a < b` on instants (Python `datetime` comparison, at day granularity). -/
def Date.lt (a b : Date) : Bool := a.toDays < b.toDays

/-- `datetime.strftime('%Y-%m')` / the `billing_start[:7]` prefix: the
billing-cycle tag of an instant, modelled as the (year, month) pair. -/
def Date.cycleTag (d : Date) : Nat × Nat := (d.year, d.month)

/-- `models.get_next_billing_date` (identical to
`tenant.get_next_billing_date`).  The `monthly` branch advances one month and
clamps the day to the target month's last valid day.  The `yearly` branch is
Python `start.replace(year=start.year + 1)`, which raises `ValueError` when
the day does not exist in the target year (Feb 29 of a leap year). -/
def get_next_billing_date (start : Date) (cycle_type : String) : Except String Date :=
  if cycle_type == "monthly" then
    let month := start.month + 1
    let year := start.year
    let (month, year) := if month > 12 then (1, year + 1) else (month, year)
    let last_day := monthrange year month
    let day := min start.day last_day
    Except.ok ⟨year, month, day⟩
  else
    if start.day ≤ monthrange (start.year + 1) start.month then
      Except.ok ⟨start.year + 1, start.month, start.day⟩
    else
      Except.error "ValueError: day is out of range for month"

/-- C5: the monthly boundary clamps day 31 of January to the last valid day
of February: Feb 29 in leap year 2024, Feb 28 in 2023. -/
theorem get_next_billing_date_monthly_clamp :
    get_next_billing_date ⟨2024, 1, 31⟩ "monthly" = Except.ok ⟨2024, 2, 29⟩ ∧
    get_next_billing_date ⟨2023, 1, 31⟩ "monthly" = Except.ok ⟨2023, 2, 28⟩ := by
  constructor <;> rfl

/-- C10: the yearly branch is not total — for a cycle start of Feb 29 of the
leap year 2024 it raises `ValueError` instead of returning a date, while the
input is a genuine calendar date (2024 is a leap year, so Feb 29 exists). -/
theorem get_next_billing_date_yearly_feb29_raises :
    isLeapYear 2024 = true ∧ (29 : Nat) ≤ monthrange 2024 2 ∧
    ∃ e, get_next_billing_date ⟨2024, 2, 29⟩ "yearly" = Except.error e := by
  refine ⟨rfl, by decide, "ValueError: day is out of range for month", rfl⟩

/-! ## Data model (the SQLite tables of `models.init_db`) -/

/-- A row of the `tenants` table (columns used by the embedded operations;
`payment_method` and the free-form `settings` JSON are never read by the
code under verification and are elided).  `api_key` holds the *stored*
credential column, whatever the code put there. -/
structure TenantRow where
  id : String
  name : String
  email : String
  api_key : String
  plan_type : String
  billing_cycle : String
  usage_count : Nat
  rate_limit : Nat
  created_at : Date
  updated_at : Option Date
  billing_start : Option Date
  billing_end : Option Date
  last_reset : Option Date
  subscription_status : String
deriving Repr, DecidableEq

/-- A row of the `usage_logs` table. -/
structure UsageLog where
  id : String
  tenant_id : String
  action : String
  resource : Option String
  timestamp : Date
  billing_cycle : Nat × Nat
deriving Repr, DecidableEq

/-- A row of the `billing_history` table (`amount`, `payment_date` and
`invoice_url` stay at their NULL defaults in every embedded operation and are
elided). `status` defaults to `pending` in the table definition. -/
structure BillingRecord where
  id : String
  tenant_id : String
  cycle_start : Date
  cycle_end : Date
  usage : Nat
  overage : Nat
  status : String
  created_at : Date
deriving Repr, DecidableEq

/-- A row of the `plans` table. -/
structure PlanRow where
  id : String
  name : String
  rate_limit : Nat
  price_monthly : Nat
  price_yearly : Nat
  overage_rate : Nat
deriving Repr, DecidableEq

/-- A row of the `sites` table (`settings` elided). -/
structure SiteRow where
  id : String
  tenant_id : String
  url_host : String
  url_path : String
  name : String
  created_at : Date
  status : String
  last_audit : Option String
  last_score : Option ℚ
  audit_count : Nat
deriving Repr, DecidableEq

/-- An issue dict `{type, severity, penalty, message}` as emitted by the
analyzers. -/
structure Issue where
  type : String
  severity : String
  penalty : Nat
  message : String
deriving Repr, DecidableEq

/-- A row of the `audits` table (`issues` is stored as a JSON dump of the
analyzer's issue list; the embedding keeps the list itself). -/
structure AuditRow where
  id : String
  site_id : String
  tenant_id : String
  score : ℚ
  issues : List Issue
  pages_analyzed : Nat
  created_at : Date
  billing_cycle : Nat × Nat
deriving Repr, DecidableEq

/-- The persistent state: one list per table. -/
structure DB where
  tenants : List TenantRow
  usage_logs : List UsageLog
  billing_history : List BillingRecord
  plans : List PlanRow
  sites : List SiteRow
  audits : List AuditRow
deriving Repr

/-- The plan catalog seeded by `init_db` (`INSERT OR IGNORE INTO plans`). -/
def seededPlans : List PlanRow :=
  [⟨"free", "Free", 100, 0, 0, 0⟩,
   ⟨"pro", "Pro", 1000, 29, 290, 5⟩,
   ⟨"enterprise", "Enterprise", 10000, 99, 990, 2⟩]

/-! ## `models.py` -/

/-- `models.get_tenant` / `tenant.get_tenant_by_id`: lookup of a tenant row
by primary key.  (`models.get_tenant` selects a subset of the columns; the
embedding returns the whole row, which carries the same information.) -/
def get_tenant (db : DB) (tid : String) : Option TenantRow :=
  db.tenants.find? (fun t => t.id == tid)

/-- `models.get_cycle_usage` (identical in `tenant.py`): number of
`usage_logs` rows of the tenant tagged with the given billing cycle.  The
Python default `cycle=None` resolves to the current cycle; callers of the
embedding pass that tag explicitly. -/
def get_cycle_usage (db : DB) (tid : String) (cycle : Nat × Nat) : Nat :=
  (db.usage_logs.filter
    (fun l => l.tenant_id == tid && l.billing_cycle == cycle)).length

/-- `models.log_usage`: append a usage event tagged with the current cycle
and bump the denormalized `usage_count` (also touching `updated_at`). -/
def log_usage (db : DB) (now : Date) (logId : String) (tid : String)
    (action : String) (resource : Option String) : DB :=
  let l : UsageLog :=
    { id := logId, tenant_id := tid, action := action, resource := resource,
      timestamp := now, billing_cycle := now.cycleTag }
  { db with
    usage_logs := db.usage_logs ++ [l],
    tenants := db.tenants.map (fun t =>
      if t.id == tid then
        { t with usage_count := t.usage_count + 1, updated_at := some now }
      else t) }

/-- Modelled from the spec: `increment_usage` is imported by `auth.py` from
`models` but its definition is missing from `src` (`models.py` is cut off
mid-file); per spec §4.D.3 the denormalized counter is incremented by one. -/
def increment_usage (db : DB) (now : Date) (tid : String) : DB :=
  { db with
    tenants := db.tenants.map (fun t =>
      if t.id == tid then
        { t with usage_count := t.usage_count + 1, updated_at := some now }
      else t) }

/-- `models.check_and_reset_usage`: if the current instant is past the
tenant's `billing_end`, archive the closing cycle into `billing_history`
(status left at its table default `pending`), start a fresh cycle, zero the
counter and prune usage logs older than 90 days.  The fresh history row id
(`uuid4`) is the `historyId` argument.  `get_next_billing_date` may raise
(yearly cycle, Feb 29): the error is reported in the second component and the
already-committed history insert is kept, as in the source where each
`execute_query` commits separately. -/
def check_and_reset_usage (db : DB) (now : Date) (historyId : String)
    (tid : String) : DB × Option String :=
  match get_tenant db tid with
  | none => (db, none)
  | some tenant =>
    match tenant.billing_end, tenant.billing_start with
    | some bend, some bstart =>
      if Date.lt bend now then
        let cycle := bstart.cycleTag
        let usage := get_cycle_usage db tid cycle
        let overage := usage - tenant.rate_limit
        let record : BillingRecord :=
          { id := historyId, tenant_id := tid, cycle_start := bstart,
            cycle_end := bend, usage := usage, overage := overage,
            status := "pending", created_at := now }
        let db1 := { db with billing_history := db.billing_history ++ [record] }
        match get_next_billing_date now tenant.billing_cycle with
        | Except.error e => (db1, some e)
        | Except.ok new_end =>
          let db2 := { db1 with
            tenants := db1.tenants.map (fun (t : TenantRow) =>
              if t.id == tid then
                { t with
                    billing_start := some now,
                    billing_end := some new_end,
                    last_reset := some now,
                    usage_count := 0 }
              else t) }
          let cutoff := now.toDays - 90
          ({ db2 with
             usage_logs := db2.usage_logs.filter (fun l =>
               !(l.tenant_id == tid && l.timestamp.toDays < cutoff)) }, none)
      else (db, none)
    | _, _ => (db, none)

/-- The heterogeneous info dict returned by `models.check_rate_limit`,
modelled as a record of optional fields (absent keys are `none`). -/
structure RateInfo where
  error : Option String
  status : Option String
  current_usage : Option Nat
  limit : Option Nat
  overage : Option Nat
  remaining : Option Nat
  days_left : Option Int
  billing_end : Option Date
  message : Option String
deriving Repr, DecidableEq

/-- The all-`none` info dict. -/
def RateInfo.empty : RateInfo := ⟨none, none, none, none, none, none, none, none, none⟩

/-- `models.check_rate_limit`: deny when the subscription is not active, or
when the event count of the current cycle has reached `rate_limit`.  Returns
the `(allowed, info)` tuple.  `datetime.fromisoformat(tenant['billing_end'])`
raises on a NULL column, modelled by the `Except` error. -/
def check_rate_limit (db : DB) (now : Date) (tid : String) :
    Except String (Bool × RateInfo) :=
  match get_tenant db tid with
  | none => Except.ok (false, { RateInfo.empty with error := some "Tenant not found" })
  | some tenant =>
    if tenant.subscription_status != "active" then
      Except.ok (false, { RateInfo.empty with
        error := some "subscription_inactive",
        status := some tenant.subscription_status })
    else
      match tenant.billing_end with
      | none => Except.error "TypeError: fromisoformat argument is None"
      | some bend =>
        let cycle_usage := get_cycle_usage db tid now.cycleTag
        let days_left := bend.toDays - now.toDays
        if cycle_usage ≥ tenant.rate_limit then
          Except.ok (false, { RateInfo.empty with
            error := some "rate_limit_exceeded",
            current_usage := some cycle_usage,
            limit := some tenant.rate_limit,
            overage := some (cycle_usage - tenant.rate_limit),
            days_left := some days_left,
            billing_end := some bend,
            message := some ("Rate limit exceeded. Used " ++ toString cycle_usage
              ++ "/" ++ toString tenant.rate_limit) })
        else
          Except.ok (true, { RateInfo.empty with
            current_usage := some cycle_usage,
            limit := some tenant.rate_limit,
            remaining := some (tenant.rate_limit - cycle_usage),
            days_left := some days_left,
            billing_end := some bend })

/-- `models.get_tenant_by_api_key`: resolve the *stored* credential column to
a tenant id, run the cycle-rollover check, and re-read the tenant. -/
def models_get_tenant_by_api_key (db : DB) (now : Date) (historyId : String)
    (key_hash : String) : (DB × Option String) × Option TenantRow :=
  match db.tenants.find? (fun t => t.api_key == key_hash) with
  | none => ((db, none), none)
  | some t =>
    match check_and_reset_usage db now historyId t.id with
    | (db1, some e) => ((db1, some e), none)
    | (db1, none) => ((db1, none), get_tenant db1 t.id)

/-! ## Credentials (`auth.py` and the key helpers of `tenant.py`) -/

/-- `generate_api_key` returns `"aseo_" + secrets.token_urlsafe(32)`; the
random token is externalized, so the embedding only records the shape. -/
def generate_api_key (token : String) : String := "aseo_" ++ token

/-- Stand-in for `hash_api_key` (`hashlib.sha256(key).hexdigest()`).  The
claims use only that the digest is a deterministic one-way map: distinct
inputs give distinct digests (collision-freeness of SHA-256 is assumed, and
holds of the stand-in by construction) and no input equals its digest. -/
def hash_api_key (api_key : String) : String := "sha256:" ++ api_key

/-- Python truthiness of a tuple: a tuple of positive length is always
truthy, whatever it contains. -/
def pyTruthyPair {α β : Type} (_p : α × β) : Bool := true

/-- Python `api_key.startswith('aseo_')`: does the string begin with the
stable credential tag? (Stated on the character list so that it computes by
unfolding.) -/
def startswith_aseo (s : String) : Bool := s.data.take 5 == "aseo_".data

/-- The value returned by `auth.verify_api_key`: Python `None`, the
rate-limit error dict (which carries the tenant), or the tenant dict. -/
inductive VerifyResult where
  | invalid
  | denied (error : String) (message : String) (tenant : TenantRow)
  | ok (tenant : TenantRow)
deriving Repr, DecidableEq

/-- `auth.verify_api_key`: reject a malformed prefix, resolve the hashed key
(which also rolls the cycle), test the rate limit, log the usage event and
return the tenant snapshot.  The line `if not check_rate_limit(tenant['id'])`
applies `not` to the `(bool, dict)` tuple returned by `check_rate_limit`; a
2-tuple is always truthy, so the denial branch is modelled through
`pyTruthyPair`, exactly as Python evaluates it.  `Except.error` is an
exception propagating out of the function. -/
def verify_api_key (db : DB) (now : Date) (historyId logId : String)
    (api_key : String) : DB × Except String VerifyResult :=
  if !(startswith_aseo api_key) then (db, Except.ok VerifyResult.invalid)
  else
    let key_hash := hash_api_key api_key
    match models_get_tenant_by_api_key db now historyId key_hash with
    | ((db1, some e), _) => (db1, Except.error e)
    | ((db1, none), none) => (db1, Except.ok VerifyResult.invalid)
    | ((db1, none), some tenant) =>
      match check_rate_limit db1 now tenant.id with
      | Except.error e => (db1, Except.error e)
      | Except.ok rl =>
        if !(pyTruthyPair rl) then
          (db1, Except.ok (VerifyResult.denied "rate_limit_exceeded"
            "Rate limit exceeded. Please upgrade your plan or try again later."
            tenant))
        else
          let db2 := log_usage db1 now logId tenant.id "api_call" (some "authentication")
          let db3 := increment_usage db2 now tenant.id
          (db3, Except.ok (VerifyResult.ok tenant))

/-! ## Billing initialization and tenant creation -/

/-- `models.initialize_tenant_billing`: set the cycle window of a fresh
tenant (this variant also writes the `billing_cycle` column).  A raising
`get_next_billing_date` is reported in the error component. -/
def initialize_tenant_billing (db : DB) (now : Date)
    (tid _plan_type billing_cycle : String) : DB × Option String :=
  match get_next_billing_date now billing_cycle with
  | Except.error e => (db, some e)
  | Except.ok bend =>
    ({ db with
       tenants := db.tenants.map (fun (t : TenantRow) =>
         if t.id == tid then
           { t with
               billing_start := some now,
               billing_end := some bend,
               last_reset := some now,
               billing_cycle := billing_cycle }
         else t) }, none)

/-- `app.create_tenant` (the `POST /tenants` handler): reads the plan's
`rate_limit` (default 100 when the plan id is unknown), inserts the tenant
row — storing the freshly generated credential in the `api_key` column
**without hashing it** — initializes billing, and returns the re-read row
together with the plaintext credential.  Randomness (`uuid4`,
`generate_api_key`) is externalized via `tenant_id` and `api_key`. -/
def app_create_tenant (db : DB) (now : Date) (tenant_id api_key : String)
    (name email plan_type billing_cycle : String) :
    (DB × Option String) × Option TenantRow :=
  let rate_limit :=
    match db.plans.find? (fun p => p.id == plan_type) with
    | some p => p.rate_limit
    | none => 100
  let row : TenantRow :=
    { id := tenant_id, name := name, email := email, api_key := api_key,
      plan_type := plan_type, billing_cycle := billing_cycle,
      usage_count := 0, rate_limit := rate_limit, created_at := now,
      updated_at := none, billing_start := none, billing_end := none,
      last_reset := none, subscription_status := "active" }
  let db1 := { db with tenants := db.tenants ++ [row] }
  match initialize_tenant_billing db1 now tenant_id plan_type billing_cycle with
  | (db2, some e) => ((db2, some e), none)
  | (db2, none) => ((db2, none), get_tenant db2 tenant_id)

/-! ## `tenant.py` -/

/-- The static `PLAN_LIMITS` catalog of `tenant.py` (the `features` lists are
not read by any embedded operation and are elided). -/
structure PlanLimits where
  rate_limit : Nat
  max_sites : Nat
  max_pages_per_audit : Nat
  price_monthly : Nat
  price_yearly : Nat
  overage_rate : Nat
deriving Repr, DecidableEq

/-- `PLAN_LIMITS.get(plan_type, PLAN_LIMITS['free'])`: the catalog lookup
with fallback to the `free` plan on an unknown id. -/
def PLAN_LIMITS (plan_type : String) : PlanLimits :=
  if plan_type == "pro" then ⟨1000, 20, 500, 29, 290, 5⟩
  else if plan_type == "enterprise" then ⟨10000, 100, 5000, 99, 990, 2⟩
  else ⟨100, 3, 50, 0, 0, 0⟩

/-- `tenant.initialize_tenant_billing` (this variant does not touch the
`billing_cycle` column, which `tenant.create_tenant` already inserted). -/
def tenantpy_initialize_tenant_billing (db : DB) (now : Date)
    (tid billing_cycle : String) : DB × Option String :=
  match get_next_billing_date now billing_cycle with
  | Except.error e => (db, some e)
  | Except.ok bend =>
    ({ db with
       tenants := db.tenants.map (fun (t : TenantRow) =>
         if t.id == tid then
           { t with
               billing_start := some now,
               billing_end := some bend,
               last_reset := some now }
         else t) }, none)

/-- `tenant.create_tenant`: inserts the row with the **hashed** credential,
initializes billing, and returns the re-read row with its `api_key` field
overwritten by the plaintext (revealed to the client exactly once). -/
def tenantpy_create_tenant (db : DB) (now : Date) (tenant_id api_key : String)
    (name email plan_type billing_cycle : String) :
    (DB × Option String) × Option TenantRow :=
  let api_key_hash := hash_api_key api_key
  let rate_limit := (PLAN_LIMITS plan_type).rate_limit
  let row : TenantRow :=
    { id := tenant_id, name := name, email := email, api_key := api_key_hash,
      plan_type := plan_type, billing_cycle := billing_cycle,
      usage_count := 0, rate_limit := rate_limit, created_at := now,
      updated_at := none, billing_start := none, billing_end := none,
      last_reset := none, subscription_status := "active" }
  let db1 := { db with tenants := db.tenants ++ [row] }
  match tenantpy_initialize_tenant_billing db1 now tenant_id billing_cycle with
  | (db2, some e) => ((db2, some e), none)
  | (db2, none) =>
    ((db2, none), (get_tenant db2 tenant_id).map (fun t => { t with api_key := api_key }))

/-- `tenant.get_tenant_by_api_key`: hash the presented credential, look the
digest up in the `api_key` column, and return the full row (no rollover in
this variant). -/
def tenantpy_get_tenant_by_api_key (db : DB) (api_key : String) : Option TenantRow :=
  let api_key_hash := hash_api_key api_key
  match db.tenants.find? (fun t => t.api_key == api_key_hash) with
  | some t => get_tenant db t.id
  | none => none

/-- `tenant.regenerate_api_key`: store the digest of a fresh credential
(invalidating the prior digest) and return the new plaintext. -/
def regenerate_api_key (db : DB) (now : Date) (tid : String)
    (new_api_key : String) : DB × String :=
  let api_key_hash := hash_api_key new_api_key
  ({ db with
     tenants := db.tenants.map (fun (t : TenantRow) =>
       if t.id == tid then
         { t with api_key := api_key_hash, updated_at := some now }
       else t) }, new_api_key)

/-- The dict returned by `tenant.calculate_overage_charges`. -/
structure OverageCharges where
  usage : Nat
  limit : Nat
  overage : Nat
  overage_blocks : Nat
  rate_per_block : Nat
  total_charge : Nat
deriving Repr, DecidableEq

/-- `tenant.calculate_overage_charges`: zero charges at or below the
allowance, otherwise `(overage + 99) // 100` blocks of 100 requests charged
at the plan's `overage_rate`.  Returns `none` for Python's empty dict when
the tenant does not exist. -/
def calculate_overage_charges (db : DB) (tid : String) (cycle : Nat × Nat) :
    Option OverageCharges :=
  match get_tenant db tid with
  | none => none
  | some tenant =>
    let usage := get_cycle_usage db tid cycle
    if usage ≤ tenant.rate_limit then
      some ⟨usage, tenant.rate_limit, 0, 0, 0, 0⟩
    else
      let overage := usage - tenant.rate_limit
      let plan := PLAN_LIMITS tenant.plan_type
      let overage_blocks := (overage + 99) / 100
      let total_charge := overage_blocks * plan.overage_rate
      some ⟨usage, tenant.rate_limit, overage, overage_blocks,
            plan.overage_rate, total_charge⟩

/-! ## Analyzer (`src/analyzer.py` and the AI engine's issue detector) -/

/-- Python `str.strip()`: remove leading and trailing whitespace (stated on
the character list so that it computes by unfolding). -/
def pyStrip (s : String) : String :=
  ⟨((s.data.dropWhile Char.isWhitespace).reverse.dropWhile Char.isWhitespace).reverse⟩

/-- The dict returned by `analyze_seo`. -/
structure SeoResult where
  seo_score : Int
  issues : List String
deriving Repr, DecidableEq

/-- `analyzer.analyze_seo` (`src/analyzer.py`): start at 100; deduct 20 for a
missing (stripped-empty) title, 10 for a title shorter than 30 characters,
20 for a missing meta description, 10 for a present meta description shorter
than 70 characters; clamp below at 0 (`max(score, 0)`); one issue string per
triggered rule.  The page's word count is never consulted.  Each Python
`if cond: score -= p; issues.append(m)` step becomes one conditional
subtraction and one conditional append on the same condition, in source
order. -/
def analyze_seo (title0 meta0 : String) : SeoResult :=
  let title := pyStrip title0
  let meta := pyStrip meta0
  let score : Int := 100
  let issues : List String := []
  let score := if title == "" then score - 20 else score
  let issues := issues ++ (if title == "" then ["Missing title"] else [])
  let score := if title.length < 30 then score - 10 else score
  let issues := issues ++
    (if title.length < 30 then ["Title too short (recommended 30+ characters)"] else [])
  let score := if meta == "" then score - 20 else score
  let issues := issues ++ (if meta == "" then ["Missing meta description"] else [])
  let score := if !(meta == "") && meta.length < 70 then score - 10 else score
  let issues := issues ++
    (if !(meta == "") && meta.length < 70 then
      ["Meta description too short (recommended 70+ characters)"] else [])
  { seo_score := max score 0, issues := issues }

/-- `IssueDetector.detect` (`src/ai/auto_seo_engine/issue_detector.py`):
emits one issue per triggered rule — missing title (20), short title (10),
missing meta (20), thin content below 300 words (15), appended in source
order.  It has no rule about the meta description's length and computes no
score. -/
def IssueDetector_detect (title meta : String) (word_count : Nat) : List Issue :=
  (if title == "" then [⟨"missing_title", "critical", 20, "Title is missing"⟩] else []) ++
  (if title.length < 30 then [⟨"short_title", "high", 10, "Title should be 30+ characters"⟩] else []) ++
  (if meta == "" then [⟨"missing_meta", "critical", 20, "Meta description missing"⟩] else []) ++
  (if word_count < 300 then [⟨"thin_content", "medium", 15, "Content is thin (<300 words)"⟩] else [])

/-! ## Crawler (`src/crawler.py`) -/

/-- An absolute URL after `urljoin` resolution, identified by its host
(`urlparse(u).netloc`) and path. -/
structure Url where
  host : String
  path : String
deriving Repr, DecidableEq

/-- A link dict produced by `Crawler._get_links`: resolved URL, anchor text,
and the `internal` flag (host equality with the start URL's host). -/
structure Link where
  url : Url
  text : String
  internal : Bool
deriving Repr, DecidableEq

/-- A fetched-and-parsed document: what `requests.get` plus `BeautifulSoup`
yield for one URL.  `links` are the resolved non-`#`/`javascript:`/`mailto:`
hrefs with their anchor texts. -/
structure Fetched where
  status_code : Nat
  title : Option String
  meta_description : Option String
  h1 : List String
  h2 : List String
  word_count : Nat
  links : List (Url × String)
deriving Repr, DecidableEq

/-- The reachable web: a finite association of URLs to documents.  A URL
outside the map is a fetch that raises (timeout, connection error, ...),
which `Crawler.crawl` catches and skips. -/
def Web := List (Url × Fetched)

/-- The page dict appended to `Crawler.results` (the `images` extraction and
`load_time` field are not involved in any claim and are elided; `links`
carries the computed `internal` flags). -/
structure CrawledPage where
  url : Url
  title : Option String
  meta_description : Option String
  h1 : List String
  h2 : List String
  links : List Link
  word_count : Nat
  status_code : Nat
deriving Repr, DecidableEq

/-- The loop state of `Crawler.crawl`: `visited` and the pending `to_visit`
are Python sets; `to_visit` is kept as a duplicate-free list whose *order
carries no meaning* — `set.pop()` removes an arbitrary element, modelled by
an explicit `pick` policy choosing the index to remove. -/
structure CrawlState where
  visited : List Url
  results : List CrawledPage
  to_visit : List Url
deriving Repr, DecidableEq

/-- `set.add`: insert without duplication. -/
def insertSet (l : List Url) (u : Url) : List Url :=
  if u ∈ l then l else l ++ [u]

/-- Build the page dict from a fetched document (the field extraction part
of the loop body of `Crawler.crawl`). -/
def extractPage (domain : String) (url : Url) (f : Fetched) : CrawledPage :=
  { url := url, title := f.title, meta_description := f.meta_description,
    h1 := f.h1, h2 := f.h2,
    links := f.links.map (fun l =>
      { url := l.1, text := l.2, internal := l.1.host == domain }),
    word_count := f.word_count, status_code := f.status_code }

/-- One iteration of the `while` loop of `Crawler.crawl`: `none` when the
loop guard `to_visit and len(results) < max_pages` fails (the loop exits),
otherwise the state after popping one URL.  `pick` chooses which element
`set.pop()` returns (any index; taken modulo the frontier's length so that
every policy is admissible). -/
def crawl_step (web : Web) (domain : String) (max_pages : Nat)
    (pick : List Url → Nat) (s : CrawlState) : Option CrawlState :=
  if s.to_visit.isEmpty || max_pages ≤ s.results.length then none
  else
    let i := pick s.to_visit % s.to_visit.length
    let url := s.to_visit.getD i ⟨"", ""⟩
    let rest := s.to_visit.eraseIdx i
    if url ∈ s.visited then
      some { s with to_visit := rest }
    else
      let visited := s.visited ++ [url]
      match web.find? (fun p => p.1 == url) with
      | none =>
        some { visited := visited, results := s.results, to_visit := rest }
      | some (_, f) =>
        if f.status_code != 200 then
          some { visited := visited, results := s.results, to_visit := rest }
        else
          let page := extractPage domain url f
          let to_visit :=
            page.links.foldl (fun acc l =>
              if l.internal && !(visited.contains l.url) then insertSet acc l.url
              else acc) rest
          some { visited := visited, results := s.results ++ [page],
                 to_visit := to_visit }

/-- The `while` loop of `Crawler.crawl`, fuel-indexed (the source loop
terminates on any finite web; `fuel` bounds the number of iterations the
embedding unfolds). -/
def crawl_loop (web : Web) (domain : String) (max_pages : Nat)
    (pick : List Url → Nat) : Nat → CrawlState → CrawlState
  | 0, s => s
  | fuel + 1, s =>
    match crawl_step web domain max_pages pick s with
    | none => s
    | some s1 => crawl_loop web domain max_pages pick fuel s1

/-- `Crawler.crawl`: clear the state, seed the pending set with the start
URL, take the start URL's host as the domain, and run the loop. -/
def crawl (web : Web) (start : Url) (max_pages : Nat)
    (pick : List Url → Nat) (fuel : Nat) : CrawlState :=
  crawl_loop web start.host max_pages pick fuel
    { visited := [], results := [], to_visit := [start] }

/-! ## Audit orchestrator (`app.run_audit`) -/

/-- Modelled from the spec: the class `SEOAnalyzer`, imported by
`app.py` as `from analyzer import SEOAnalyzer`, is not present under `src`
(only its caller is).  Per spec §4.F a page's score starts at 100 and
deducts 20 for an absent title, 10 for a title shorter than 30 characters,
20 for an absent meta description, 10 for a present meta description shorter
than 70 characters, and 15 for fewer than 300 words, clamped to [0, 100],
with one issue per triggered rule carrying the page identity. -/
def page_score_and_issues (p : CrawledPage) : Int × List Issue :=
  let titleAbsent := p.title.getD "" == ""
  let titleLen := (p.title.getD "").length
  let metaAbsent := p.meta_description.getD "" == ""
  let metaLen := (p.meta_description.getD "").length
  let pageId := p.url.host ++ p.url.path
  let r1 : Int × List Issue := (100, [])
  let r2 :=
    if titleAbsent then
      (r1.1 - 20, r1.2 ++ [⟨"missing_title", "critical", 20, "Missing title on " ++ pageId⟩])
    else r1
  let r3 :=
    if titleLen < 30 then
      (r2.1 - 10, r2.2 ++ [⟨"short_title", "high", 10, "Short title on " ++ pageId⟩])
    else r2
  let r4 :=
    if metaAbsent then
      (r3.1 - 20, r3.2 ++ [⟨"missing_meta", "critical", 20, "Missing meta description on " ++ pageId⟩])
    else r3
  let r5 :=
    if !metaAbsent && metaLen < 70 then
      (r4.1 - 10, r4.2 ++ [⟨"short_meta", "high", 10, "Short meta description on " ++ pageId⟩])
    else r4
  let r6 :=
    if p.word_count < 300 then
      (r5.1 - 15, r5.2 ++ [⟨"thin_content", "medium", 15, "Thin content on " ++ pageId⟩])
    else r5
  (min 100 (max r6.1 0), r6.2)

/-- Modelled from the spec: `SEOAnalyzer.analyze` — for multi-page audits
the audit score is the arithmetic mean of the per-page scores and the issue
lists are concatenated (spec §4.F); the mean of zero pages is undefined, so
the call raises on an empty page list (scenario S5 depends on exactly
this). -/
def SEOAnalyzer_analyze (pages : List CrawledPage) :
    Except String (ℚ × List Issue) :=
  if pages.isEmpty then
    Except.error "ZeroDivisionError: mean of an empty list of pages"
  else
    let scored := pages.map page_score_and_issues
    let total : Int := (scored.map Prod.fst).sum
    Except.ok ((total : ℚ) / (pages.length : ℚ),
               (scored.map Prod.snd).flatten)

/-- `UPDATE sites SET status = ? WHERE id = ?`. -/
def set_site_status (db : DB) (site_id status : String) : DB :=
  { db with
    sites := db.sites.map (fun (s : SiteRow) =>
      if s.id == site_id then { s with status := status } else s) }

/-- `app.run_audit`, the background audit task.  The whole body runs in a
`try`, whose `except` arm marks the site `failed` and returns (the error is
printed, never re-raised, so the function is total and nothing reaches the
HTTP call that queued the task).  The two operations that can raise are
`check_rate_limit` (NULL `billing_end`) and the analyzer (empty page list);
`Crawler.crawl` catches its own fetch errors.  `max_pages` is the hardcoded
50 of the source. -/
def run_audit (db : DB) (now : Date) (web : Web) (pick : List Url → Nat)
    (fuel : Nat) (audit_id log_id : String) (site_id : String) (url : Url)
    (tenant_id : String) : DB :=
  match check_rate_limit db now tenant_id with
  | Except.error _ => set_site_status db site_id "failed"
  | Except.ok (allowed, _info) =>
    if !allowed then set_site_status db site_id "failed"
    else
      let db1 := set_site_status db site_id "running"
      let pages := (crawl web url 50 pick fuel).results
      match SEOAnalyzer_analyze pages with
      | Except.error _ => set_site_status db1 site_id "failed"
      | Except.ok (score, issues) =>
        let audit : AuditRow :=
          { id := audit_id, site_id := site_id, tenant_id := tenant_id,
            score := score, issues := issues, pages_analyzed := pages.length,
            created_at := now, billing_cycle := now.cycleTag }
        let db2 := { db1 with audits := db1.audits ++ [audit] }
        let db3 := { db2 with
          sites := db2.sites.map (fun (s : SiteRow) =>
            if s.id == site_id then
              { s with
                  status := "completed",
                  last_audit := some audit_id,
                  last_score := some score,
                  audit_count := s.audit_count + 1 }
            else s) }
        log_usage db3 now log_id tenant_id "audit_completed" (some audit_id)

/-! ## Theorems settling the claims -/

/-- A helper: an empty database with the seeded plan catalog. -/
def emptyDB : DB :=
  { tenants := [], usage_logs := [], billing_history := [], plans := seededPlans,
    sites := [], audits := [] }

/-- The free-plan tenant of scenario S1, registered 2024-01-10, with its
cycle running to 2024-02-10. -/
def s1Tenant : TenantRow :=
  { id := "t1", name := "A", email := "a@x",
    api_key := hash_api_key "aseo_k1", plan_type := "free",
    billing_cycle := "monthly", usage_count := 100, rate_limit := 100,
    created_at := ⟨2024, 1, 10⟩, updated_at := none,
    billing_start := some ⟨2024, 1, 10⟩, billing_end := some ⟨2024, 2, 10⟩,
    last_reset := some ⟨2024, 1, 10⟩, subscription_status := "active" }

/-- The usage event that each of the 100 successful gate calls of S1 logs. -/
def s1Log : UsageLog :=
  { id := "u", tenant_id := "t1", action := "api_call",
    resource := some "authentication", timestamp := ⟨2024, 1, 10⟩,
    billing_cycle := (2024, 1) }

/-- The state just before the 101st gate call of scenario S1: the free
tenant has 100 usage events in the current cycle. -/
def s1DB : DB := { emptyDB with tenants := [s1Tenant], usage_logs := List.replicate 100 s1Log }

/-- C1: the quota gate of `auth.verify_api_key` never denies.
`models.check_rate_limit` itself reports `rate_limit_exceeded` for the 101st
call of the S1 tenant (usage 100 ≥ limit 100, `overage = 0`), but
`verify_api_key` tests the truthiness of the returned `(bool, dict)` tuple —
always true — so the 101st call still logs an `api_call` usage event and
returns the tenant snapshot instead of failing. -/
theorem verify_api_key_ignores_rate_limit :
    check_rate_limit s1DB ⟨2024, 1, 20⟩ "t1" =
      Except.ok (false, { RateInfo.empty with
        error := some "rate_limit_exceeded",
        current_usage := some 100, limit := some 100, overage := some 0,
        days_left := some 21, billing_end := some ⟨2024, 2, 10⟩,
        message := some "Rate limit exceeded. Used 100/100" }) ∧
    (verify_api_key s1DB ⟨2024, 1, 20⟩ "h1" "l1" "aseo_k1").2 =
      Except.ok (VerifyResult.ok s1Tenant) ∧
    (verify_api_key s1DB ⟨2024, 1, 20⟩ "h1" "l1" "aseo_k1").1.usage_logs =
      List.replicate 100 s1Log ++
        [{ id := "l1", tenant_id := "t1", action := "api_call",
           resource := some "authentication", timestamp := ⟨2024, 1, 20⟩,
           billing_cycle := (2024, 1) }] := by
  refine ⟨by rfl, by rfl, by decide⟩

/-- Casting a truncated `Nat` subtraction to `Int` is Python's
`max(0, a - b)`. -/
theorem natSub_cast_eq_max (a b : Nat) :
    ((a - b : Nat) : Int) = max 0 ((a : Int) - (b : Int)) := by
  rcases Nat.le_total a b with h | h
  · rw [Nat.sub_eq_zero_of_le h, eq_comm]
    exact max_eq_left (by omega)
  · rw [Nat.cast_sub h, eq_comm]
    exact max_eq_right (by omega)

/-- Stated from the claim's words, for comparison with what the code
computes: the number of usage events of the tenant whose instant lies within
the cycle window `[cycle_start, cycle_end]` — the events "belonging to the
closing cycle". -/
def usage_events_in_window (db : DB) (tid : String) (cstart cend : Date) : Nat :=
  (db.usage_logs.filter (fun l => l.tenant_id == tid
      && !(Date.lt l.timestamp cstart) && !(Date.lt cend l.timestamp))).length

/-- A tenant identical to the S1 tenant but with a usage event logged inside
the cycle yet in a different calendar month than the cycle start. -/
def c2Tenant : TenantRow :=
  { s1Tenant with id := "t2", api_key := hash_api_key "aseo_k2", usage_count := 1 }

/-- A usage event written by `log_usage` on 2024-02-05 — within the cycle
2024-01-10 → 2024-02-10, but tagged `(2024, 2)` because `log_usage` tags
events with the month of their instant. -/
def c2Log : UsageLog :=
  { id := "u2", tenant_id := "t2", action := "api_call", resource := none,
    timestamp := ⟨2024, 2, 5⟩, billing_cycle := (2024, 2) }

/-- The state rolled over in the C2 counterexample. -/
def c2DB : DB := { emptyDB with tenants := [c2Tenant], usage_logs := [c2Log] }

/-- C2 counterexample: one usage event belongs to the closing cycle
2024-01-10 → 2024-02-10 (logged 2024-02-05), but the billing record written
by `check_and_reset_usage` on 2024-02-11 carries `usage = 0`, because the
code counts only events *tagged with the calendar month of the cycle start*
(`billing_start[:7]` = 2024-01), not the events inside the cycle window. -/
theorem check_and_reset_usage_counts_tag_not_cycle :
    usage_events_in_window c2DB "t2" ⟨2024, 1, 10⟩ ⟨2024, 2, 10⟩ = 1 ∧
    (check_and_reset_usage c2DB ⟨2024, 2, 11⟩ "h2" "t2").1.billing_history.map
        (fun r => (r.usage, r.cycle_start, r.cycle_end, r.status)) =
      [(0, ⟨2024, 1, 10⟩, ⟨2024, 2, 10⟩, "pending")] ∧
    (0 : Nat) ≠ 1 := by
  refine ⟨by decide, by rfl, by decide⟩

/-- C2 (amended): one invocation of `check_and_reset_usage` on an expired
cycle appends exactly one billing record with status `pending`, whose
`usage` is the number of usage events *tagged with the calendar month of the
cycle start* and whose `overage` is `max(0, usage − allowance)`; it then
zeroes `usage_count` and starts the new cycle at `now`. -/
theorem check_and_reset_usage_rollover (db : DB) (now : Date) (hid tid : String)
    (tenant : TenantRow) (bstart bend new_end : Date)
    (h1 : get_tenant db tid = some tenant)
    (h2 : tenant.billing_start = some bstart)
    (h3 : tenant.billing_end = some bend)
    (h4 : Date.lt bend now = true)
    (h5 : get_next_billing_date now tenant.billing_cycle = Except.ok new_end) :
    (check_and_reset_usage db now hid tid).2 = none ∧
    (check_and_reset_usage db now hid tid).1.billing_history =
      db.billing_history ++
        [{ id := hid, tenant_id := tid, cycle_start := bstart, cycle_end := bend,
           usage := get_cycle_usage db tid bstart.cycleTag,
           overage := get_cycle_usage db tid bstart.cycleTag - tenant.rate_limit,
           status := "pending", created_at := now }] ∧
    ((get_cycle_usage db tid bstart.cycleTag - tenant.rate_limit : Nat) : Int) =
      max 0 ((get_cycle_usage db tid bstart.cycleTag : Int) - (tenant.rate_limit : Int)) ∧
    (∀ t ∈ (check_and_reset_usage db now hid tid).1.tenants, t.id = tid →
      t.usage_count = 0 ∧ t.billing_start = some now ∧ t.billing_end = some new_end) := by
  have hcr : check_and_reset_usage db now hid tid =
      ({ db with
         billing_history := db.billing_history ++
           [{ id := hid, tenant_id := tid, cycle_start := bstart, cycle_end := bend,
              usage := get_cycle_usage db tid bstart.cycleTag,
              overage := get_cycle_usage db tid bstart.cycleTag - tenant.rate_limit,
              status := "pending", created_at := now }],
         tenants := db.tenants.map (fun (t : TenantRow) =>
           if t.id == tid then
             { t with
                 billing_start := some now,
                 billing_end := some new_end,
                 last_reset := some now,
                 usage_count := 0 }
           else t),
         usage_logs := db.usage_logs.filter (fun l =>
           !(l.tenant_id == tid && l.timestamp.toDays < now.toDays - 90)) }, none) := by
    unfold check_and_reset_usage
    rw [h1]
    simp only [h2, h3, h4, h5, if_true]
  refine ⟨by rw [hcr], by rw [hcr], natSub_cast_eq_max _ _, ?_⟩
  rw [hcr]
  intro t ht hteq
  rcases List.mem_map.1 ht with ⟨t0, _ht0, rfl⟩
  by_cases h : t0.id == tid
  · simp [h]
  · rw [if_neg h] at hteq
    exact absurd (beq_iff_eq.mpr hteq) h

/-- The S1 tenant at the moment of scenario S2, with 101 usage events tagged
with the closing cycle's start month. -/
def s2Tenant : TenantRow := { s1Tenant with usage_count := 101 }

/-- The S2 state: 101 events tagged `(2024, 1)`. -/
def s2DB : DB :=
  { emptyDB with tenants := [s2Tenant], usage_logs := List.replicate 101 s1Log }

/-- Witness for the amended C2 theorem, at the S2 scenario: rolling the S1
tenant on 2024-02-11 writes the billing record
`usage = 101, overage = 1, status = pending` and starts the cycle
2024-02-11 → 2024-03-11 with `usage_count = 0`. -/
theorem check_and_reset_usage_rollover_witness :
    Date.lt ⟨2024, 2, 10⟩ ⟨2024, 2, 11⟩ = true ∧
    (check_and_reset_usage s2DB ⟨2024, 2, 11⟩ "h1" "t1").1.billing_history.map
        (fun r => (r.usage, r.overage, r.status)) = [(101, 1, "pending")] ∧
    (∀ t ∈ (check_and_reset_usage s2DB ⟨2024, 2, 11⟩ "h1" "t1").1.tenants,
      t.id = "t1" → t.usage_count = 0 ∧ t.billing_start = some ⟨2024, 2, 11⟩ ∧
        t.billing_end = some ⟨2024, 3, 11⟩) := by
  have h := check_and_reset_usage_rollover s2DB ⟨2024, 2, 11⟩ "h1" "t1" s2Tenant
    ⟨2024, 1, 10⟩ ⟨2024, 2, 10⟩ ⟨2024, 3, 11⟩ rfl rfl rfl (by decide) rfl
  refine ⟨by decide, ?_, h.2.2.2⟩
  rw [h.2.1]
  rfl

/-- C3: the `POST /tenants` handler (`app.create_tenant`) persists the
plaintext credential.  Creating a tenant in a fresh database leaves a
`tenants` row whose `api_key` column holds exactly the opaque string
returned to the client (not a digest of it — the second conjunct), while
`tenant.create_tenant`, the other cited creation path, stores only the
digest (third conjunct), which is also what `auth.verify_api_key` compares
against. -/
theorem app_create_tenant_stores_plaintext :
    ((app_create_tenant emptyDB ⟨2024, 1, 10⟩ "t1" (generate_api_key "tok")
        "A" "a@x" "free" "monthly").1.1).tenants.map TenantRow.api_key =
      [generate_api_key "tok"] ∧
    generate_api_key "tok" ≠ hash_api_key (generate_api_key "tok") ∧
    ((tenantpy_create_tenant emptyDB ⟨2024, 1, 10⟩ "t1" (generate_api_key "tok")
        "A" "a@x" "free" "monthly").1.1).tenants.map TenantRow.api_key =
      [hash_api_key (generate_api_key "tok")] := by
  refine ⟨by rfl, by decide, by rfl⟩

/-- C4: `calculate_overage_charges` reports zero blocks and zero charge when
the cycle's usage is at or below the tenant's allowance, and otherwise
charges `⌈overage / 100⌉` blocks at the plan's `overage_rate`. -/
theorem calculate_overage_charges_blocks (db : DB) (tid : String)
    (cycle : Nat × Nat) (tenant : TenantRow)
    (h1 : get_tenant db tid = some tenant) :
    (get_cycle_usage db tid cycle ≤ tenant.rate_limit →
      calculate_overage_charges db tid cycle =
        some ⟨get_cycle_usage db tid cycle, tenant.rate_limit, 0, 0, 0, 0⟩) ∧
    (tenant.rate_limit < get_cycle_usage db tid cycle →
      ∃ r, calculate_overage_charges db tid cycle = some r ∧
        r.usage = get_cycle_usage db tid cycle ∧
        r.overage = get_cycle_usage db tid cycle - tenant.rate_limit ∧
        r.overage_blocks = r.overage ⌈/⌉ 100 ∧
        r.total_charge = r.overage_blocks * (PLAN_LIMITS tenant.plan_type).overage_rate) := by
  simp only [calculate_overage_charges, h1]
  constructor
  · intro hle
    rw [if_pos hle]
  · intro hlt
    rw [if_neg (by omega)]
    refine ⟨_, rfl, rfl, rfl, ?_, rfl⟩
    show (get_cycle_usage db tid cycle - tenant.rate_limit + 99) / 100 =
      (get_cycle_usage db tid cycle - tenant.rate_limit) ⌈/⌉ 100
    rw [Nat.ceilDiv_eq_add_pred_div]
    omega

/-- The S3 tenant: plan `pro`, allowance 1000. -/
def c4Tenant : TenantRow :=
  { s1Tenant with
      id := "t4",
      api_key := hash_api_key "aseo_k4",
      plan_type := "pro",
      rate_limit := 1000,
      usage_count := 1237 }

/-- A usage event of the S3 tenant's closed cycle. -/
def c4Log : UsageLog := { s1Log with tenant_id := "t4" }

/-- The S3 state: 1237 events in the cycle tagged `(2024, 1)`. -/
def c4DB : DB :=
  { emptyDB with tenants := [c4Tenant], usage_logs := List.replicate 1237 c4Log }

set_option maxRecDepth 20000 in
/-- Witness for C4 at scenario S3: a `pro` tenant (overage rate 5) with 1237
requests in the cycle is charged 3 blocks, 15 currency units. -/
theorem calculate_overage_charges_blocks_witness :
    1000 < get_cycle_usage c4DB "t4" (2024, 1) ∧
    ∃ r, calculate_overage_charges c4DB "t4" (2024, 1) = some r ∧
      r.usage = 1237 ∧ r.overage = 237 ∧ r.overage_blocks = 3 ∧ r.total_charge = 15 := by
  have husage : get_cycle_usage c4DB "t4" (2024, 1) = 1237 := by rfl
  have h := (calculate_overage_charges_blocks c4DB "t4" (2024, 1) c4Tenant rfl).2
    (by rw [husage]; decide)
  rcases h with ⟨r, hr, hu, ho, hb, hc⟩
  have hrl : c4Tenant.rate_limit = 1000 := rfl
  have hov : r.overage = 237 := by rw [ho, husage, hrl]
  have hbl : r.overage_blocks = 3 := by rw [hb, hov]; decide
  refine ⟨by rw [husage]; decide, r, hr, by rw [hu, husage], hov, hbl, ?_⟩
  rw [hc, hbl]
  rfl

/-- An adequate meta description (89 characters, well above 70). -/
def c6Meta : String :=
  "A sufficiently long meta description that comfortably exceeds the seventy character rule."

/-- C6 counterexample: for the S4 page — empty title, adequate meta
description, word count 120 — the cited scoring analyzer `analyze_seo`
returns 70, not the claimed 55 = 100−20−10−15: it has no word-count rule at
all (its signature consumes only title and meta description).  The 15-point
thin-content penalty exists only in `IssueDetector.detect`, which emits
issues (summing to penalty 45 here) but computes no score. -/
theorem analyze_seo_word_count_counterexample :
    70 ≤ (pyStrip c6Meta).length ∧
    (analyze_seo "" c6Meta).seo_score = 70 ∧
    (analyze_seo "" c6Meta).seo_score ≠ 55 ∧
    (IssueDetector_detect "" c6Meta 120).map (fun i => (i.type, i.penalty)) =
      [("missing_title", 20), ("short_title", 10), ("thin_content", 15)] ∧
    ((IssueDetector_detect "" c6Meta 120).map Issue.penalty).sum = 45 := by
  refine ⟨by decide, by rfl, by decide, by rfl, by rfl⟩

/-- C6 (amended): `analyze_seo` starts at 100 and deducts 20 for an absent
title, 10 for a title under 30 characters, 20 for an absent meta
description, and 10 for a present meta description under 70 characters —
with no word-count rule — clamping at 0 and emitting one issue per triggered
rule; the word-count rule (penalty 15 below 300 words) lives only in
`IssueDetector.detect`, which emits one issue per triggered rule of its own
rule set (absent title 20, short title 10, absent meta 20, thin content 15)
and produces no score. -/
theorem analyze_seo_rules_characterization (title0 meta0 : String) (wc : Nat) :
    (analyze_seo title0 meta0).seo_score =
      max (100 -
        ((if pyStrip title0 == "" then 20 else 0) +
         (if (pyStrip title0).length < 30 then 10 else 0) +
         (if pyStrip meta0 == "" then 20 else 0) +
         (if !(pyStrip meta0 == "") && (pyStrip meta0).length < 70 then 10 else 0) : Int)) 0 ∧
    (analyze_seo title0 meta0).issues.length =
      ((if pyStrip title0 == "" then 1 else 0) +
       (if (pyStrip title0).length < 30 then 1 else 0) +
       (if pyStrip meta0 == "" then 1 else 0) +
       (if !(pyStrip meta0 == "") && (pyStrip meta0).length < 70 then 1 else 0)) ∧
    (IssueDetector_detect title0 meta0 wc).map (fun i => (i.type, i.penalty)) =
      ((if title0 == "" then [("missing_title", 20)] else []) ++
       (if title0.length < 30 then [("short_title", 10)] else []) ++
       (if meta0 == "" then [("missing_meta", 20)] else []) ++
       (if wc < 300 then [("thin_content", 15)] else [])) := by
  unfold analyze_seo IssueDetector_detect
  refine ⟨?_, ?_, ?_⟩ <;> split_ifs <;> simp_all <;> omega

/-- Membership after the link-enqueuing fold of the crawl loop: anything in
the folded frontier was already pending or is the target of a link passing
the enqueue test. -/
theorem mem_foldl_insertSet (p : Link → Bool) (links : List Link)
    (init : List Url) (u : Url)
    (hu : u ∈ links.foldl (fun acc l => if p l then insertSet acc l.url else acc) init) :
    u ∈ init ∨ ∃ l ∈ links, p l = true ∧ u = l.url := by
  induction links generalizing init with
  | nil => exact Or.inl hu
  | cons a as ih =>
    rw [List.foldl_cons] at hu
    rcases ih _ hu with h | ⟨l, hl, hp, hul⟩
    · by_cases hc : p a
      · rw [if_pos hc] at h
        unfold insertSet at h
        split at h
        · exact Or.inl h
        · rcases List.mem_append.1 h with h1 | h1
          · exact Or.inl h1
          · exact Or.inr ⟨a, List.mem_cons_self a as, hc, by simpa using h1⟩
      · rw [if_neg hc] at h
        exact Or.inl h
    · exact Or.inr ⟨l, List.mem_cons_of_mem a hl, hp, hul⟩

/-- C7 (amended): the loop contract of `Crawler.crawl`, iteration by
iteration, for *every* admissible `set.pop()` order: the loop runs exactly
while the pending set is nonempty and the page cap is unreached (first
conjunct); an iteration only records pages fetched with status 200 (second),
only enqueues internal links — same host as the start — not yet visited
(third), skips an already-visited popped URL without fetching or recording
anything (fourth), and visits at most one new URL (fifth); and the crawl
starts from the pending set seeded with exactly the start URL, taking the
start's host as the domain (last conjunct). -/
theorem crawl_step_follows_loop_contract (web : Web) (domain : String)
    (cap : Nat) (pick : List Url → Nat) (s : CrawlState) :
    (crawl_step web domain cap pick s = none ↔
      (s.to_visit.isEmpty = true ∨ cap ≤ s.results.length)) ∧
    (∀ s1, crawl_step web domain cap pick s = some s1 →
      (∀ p ∈ s1.results, p ∈ s.results ∨ p.status_code = 200) ∧
      (∀ u ∈ s1.to_visit, u ∈ s.to_visit ∨ (u.host = domain ∧ u ∉ s1.visited)) ∧
      (s.to_visit.getD (pick s.to_visit % s.to_visit.length) ⟨"", ""⟩ ∈ s.visited →
        s1 = { s with
                 to_visit := s.to_visit.eraseIdx (pick s.to_visit % s.to_visit.length) }) ∧
      (s1.visited = s.visited ∨ ∃ u, u ∉ s.visited ∧ s1.visited = s.visited ++ [u])) ∧
    (∀ start fuel, crawl web start cap pick fuel =
      crawl_loop web start.host cap pick fuel
        { visited := [], results := [], to_visit := [start] }) := by
  have hsome : ¬(s.to_visit.isEmpty = true ∨ cap ≤ s.results.length) →
      ∃ s1, crawl_step web domain cap pick s = some s1 := by
    intro h
    simp only [crawl_step]
    rw [if_neg (by simpa using h)]
    split
    · exact ⟨_, rfl⟩
    · split
      · exact ⟨_, rfl⟩
      · split
        · exact ⟨_, rfl⟩
        · exact ⟨_, rfl⟩
  refine ⟨⟨?_, ?_⟩, ?_, ?_⟩
  · intro hnone
    by_cases hg : s.to_visit.isEmpty = true ∨ cap ≤ s.results.length
    · exact hg
    · rcases hsome hg with ⟨s1, hs1⟩
      rw [hs1] at hnone
      cases hnone
  · intro hg
    simp only [crawl_step]
    rw [if_pos (by simpa using hg)]
  · intro s1 hs1
    simp only [crawl_step] at hs1
    split at hs1
    · cases hs1
    · split at hs1
      · -- the popped URL was already visited: only the frontier shrinks
        rename_i hvis
        cases hs1
        refine ⟨fun p hp => Or.inl hp,
                fun u hu => Or.inl (List.eraseIdx_subset _ _ hu),
                fun _ => rfl, Or.inl rfl⟩
      · rename_i hvis
        split at hs1
        · -- the fetch raised: logged and skipped
          cases hs1
          exact ⟨fun p hp => Or.inl hp,
                 fun u hu => Or.inl (List.eraseIdx_subset _ _ hu),
                 fun h => absurd h hvis, Or.inr ⟨_, hvis, rfl⟩⟩
        · rename_i f hfind
          split at hs1
          · -- status ≠ 200: skipped
            cases hs1
            exact ⟨fun p hp => Or.inl hp,
                   fun u hu => Or.inl (List.eraseIdx_subset _ _ hu),
                   fun h => absurd h hvis, Or.inr ⟨_, hvis, rfl⟩⟩
          · -- status 200: record the page, enqueue unvisited internal links
            rename_i hst
            cases hs1
            refine ⟨?_, ?_, fun h => absurd h hvis, Or.inr ⟨_, hvis, rfl⟩⟩
            · intro p hp
              rcases List.mem_append.1 hp with h1 | h1
              · exact Or.inl h1
              · refine Or.inr ?_
                have hp2 : p = extractPage domain
                    (s.to_visit.getD (pick s.to_visit % s.to_visit.length) ⟨"", ""⟩)
                    f := by simpa using h1
                have h200 : f.status_code = 200 := by simpa using hst
                rw [hp2]
                exact h200
            · intro u hu
              rcases mem_foldl_insertSet _ _ _ _ hu with h1 | ⟨l, hl, hpl, hul⟩
              · exact Or.inl (List.eraseIdx_subset _ _ h1)
              · refine Or.inr ?_
                rw [Bool.and_eq_true] at hpl
                rcases hpl with ⟨hint, hnv⟩
                rcases List.mem_map.1 hl with ⟨x, _hx, rfl⟩
                refine ⟨?_, ?_⟩
                · rw [hul]
                  exact beq_iff_eq.1 hint
                · rw [hul]
                  intro hmem
                  simp_all
  · intro start fuel
    rfl

/-- The start page of the C7 site. -/
def urlA : Url := ⟨"e.test", "/"⟩

/-- An inner page linked first from the start page. -/
def urlB : Url := ⟨"e.test", "/b"⟩

/-- An inner page linked second from the start page. -/
def urlC : Url := ⟨"e.test", "/c"⟩

/-- A page linked only from `/b`. -/
def urlD : Url := ⟨"e.test", "/d"⟩

/-- A well-formed document with the given outgoing links. -/
def c7Doc (links : List (Url × String)) : Fetched :=
  { status_code := 200, title := some "A long enough page title for this site",
    meta_description := some c6Meta, h1 := [], h2 := [], word_count := 500,
    links := links }

/-- The C7 site: `/` links to `/b` then `/c`; `/b` links to `/d`. -/
def c7Web : Web :=
  [(urlA, c7Doc [(urlB, "b"), (urlC, "c")]),
   (urlB, c7Doc [(urlD, "d")]),
   (urlC, c7Doc []),
   (urlD, c7Doc [])]

/-- The pop policy realizing a FIFO queue (always remove the oldest pending
URL) — the only order under which the loop is breadth-first. -/
def pickFIFO : List Url → Nat := fun _ => 0

/-- A pop policy removing the most recently added pending URL — equally
admissible for Python's `set.pop()`, whose removal order is unspecified. -/
def pickLast : List Url → Nat := fun l => l.length - 1

/-- C7 counterexample: the pending collection is a Python *set* and
`set.pop()` removes an arbitrary element, so the traversal order is not
breadth-first.  On the C7 site, breadth-first order (the FIFO policy) visits
`/, /b, /c, /d`, but the equally admissible newest-first policy visits
`/, /c, /b, /d` — so the claim's "explores breadth-first" fails for the
unordered frontier the code actually uses. -/
theorem crawl_not_breadth_first :
    (crawl c7Web urlA 50 pickFIFO 20).results.map CrawledPage.url =
      [urlA, urlB, urlC, urlD] ∧
    (crawl c7Web urlA 50 pickLast 20).results.map CrawledPage.url =
      [urlA, urlC, urlB, urlD] ∧
    ([urlA, urlC, urlB, urlD] : List Url) ≠ [urlA, urlB, urlC, urlD] := by
  refine ⟨by rfl, by rfl, by decide⟩

/-- The state of the crawl of the C7 site just after seeding. -/
def c7s0 : CrawlState := { visited := [], results := [], to_visit := [urlA] }

/-- The state after the first iteration under the FIFO policy. -/
def c7s1 : CrawlState :=
  { visited := [urlA],
    results := [extractPage "e.test" urlA (c7Doc [(urlB, "b"), (urlC, "c")])],
    to_visit := [urlB, urlC] }

/-- Witness for the C7 loop contract at the first iteration of the C7 site:
the recorded page has status 200 and both enqueued links are internal and
unvisited. -/
theorem crawl_step_follows_loop_contract_witness :
    (∀ p ∈ c7s1.results, p ∈ c7s0.results ∨ p.status_code = 200) ∧
    (∀ u ∈ c7s1.to_visit, u ∈ c7s0.to_visit ∨ (u.host = "e.test" ∧ u ∉ c7s1.visited)) ∧
    (crawl_step c7Web "e.test" 50 pickFIFO ⟨[urlA], [], [urlA]⟩ = none ↔
      (([urlA] : List Url).isEmpty = true ∨ 50 ≤ ([] : List CrawledPage).length)) := by
  have h := (crawl_step_follows_loop_contract c7Web "e.test" 50 pickFIFO c7s0).2.1 c7s1 (by rfl)
  have hg := (crawl_step_follows_loop_contract c7Web "e.test" 50 pickFIFO
    ⟨[urlA], [], [urlA]⟩).1
  exact ⟨h.1, h.2.1, hg⟩

/-- The digest stand-in is injective (SHA-256 collision-freeness is assumed
of the real function). -/
theorem hash_api_key_injective (a b : String)
    (h : hash_api_key a = hash_api_key b) : a = b := by
  unfold hash_api_key at h
  have h2 := congrArg String.data h
  simp only [String.data_append] at h2
  have h3 := List.append_cancel_left h2
  cases a
  cases b
  exact congrArg String.mk h3

/-- `find?` skips a prefix in which nothing matches. -/
theorem find?_append_none {α} (p : α → Bool) (l1 l2 : List α)
    (h : l1.find? p = none) : (l1 ++ l2).find? p = l2.find? p := by
  rw [List.find?_append, h, Option.none_or]

/-- Resolution finds the single matching row appended after a list of
non-matching rows. -/
theorem tenantpy_resolve_last (pre : List TenantRow) (r : TenantRow)
    (rest : DB) (k : String)
    (hpre_k : ∀ t ∈ pre, t.api_key ≠ hash_api_key k)
    (hpre_id : ∀ t ∈ pre, t.id ≠ r.id)
    (hr : r.api_key = hash_api_key k) :
    tenantpy_get_tenant_by_api_key { rest with tenants := pre ++ [r] } k = some r := by
  have h1 : (pre ++ [r]).find? (fun t => t.api_key == hash_api_key k) = some r := by
    rw [find?_append_none _ _ _
      (List.find?_eq_none.mpr (fun t ht => by simp [hpre_k t ht]))]
    simp [hr]
  simp only [tenantpy_get_tenant_by_api_key]
  rw [h1]
  show get_tenant _ r.id = some r
  simp only [get_tenant]
  rw [find?_append_none _ _ _
    (List.find?_eq_none.mpr (fun t ht => by simp [hpre_id t ht]))]
  simp

/-- Resolution yields null when no stored digest matches. -/
theorem tenantpy_resolve_none (db : DB) (k : String)
    (h : ∀ t ∈ db.tenants, t.api_key ≠ hash_api_key k) :
    tenantpy_get_tenant_by_api_key db k = none := by
  simp only [tenantpy_get_tenant_by_api_key]
  rw [List.find?_eq_none.mpr (fun t ht => by simp [h t ht])]

/-- Mapping the billing-initialization update over rows ending in the single
row with the target id updates exactly that row. -/
theorem init_map_append (l : List TenantRow) (tid : String) (now bend : Date)
    (r : TenantRow) (hl : ∀ t ∈ l, t.id ≠ tid) (hr : r.id = tid) :
    (l ++ [r]).map (fun (t : TenantRow) =>
        if t.id == tid then
          { t with
              billing_start := some now,
              billing_end := some bend,
              last_reset := some now }
        else t) =
      l ++ [{ r with
                billing_start := some now,
                billing_end := some bend,
                last_reset := some now }] := by
  rw [List.map_append]
  congr 1
  · conv_rhs => rw [← List.map_id l]
    exact List.map_congr_left (fun t ht => by
      simp [beq_eq_false_iff_ne.mpr (hl t ht)])
  · simp [hr]

/-- Mapping the key-rotation update over rows ending in the single row with
the target id updates exactly that row. -/
theorem regen_map_append (l : List TenantRow) (tid : String) (now : Date)
    (h : String) (r : TenantRow) (hl : ∀ t ∈ l, t.id ≠ tid) (hr : r.id = tid) :
    (l ++ [r]).map (fun (t : TenantRow) =>
        if t.id == tid then { t with api_key := h, updated_at := some now }
        else t) =
      l ++ [{ r with api_key := h, updated_at := some now }] := by
  rw [List.map_append]
  congr 1
  · conv_rhs => rw [← List.map_id l]
    exact List.map_congr_left (fun t ht => by
      simp [beq_eq_false_iff_ne.mpr (hl t ht)])
  · simp [hr]

/-- C8: the credential round-trip.  A credential issued at creation (stored
as a digest) resolves to the created tenant; after rotation, the previously
issued opaque string resolves to null and the fresh one resolves to the
tenant.  Freshness of the generated id and of the two random credentials
against the pre-existing rows reflects the UNIQUE constraints and the
≥192-bit entropy of `secrets.token_urlsafe`; injectivity of the digest
reflects SHA-256 collision-freeness. -/
theorem issue_resolve_rotate_roundtrip (db : DB) (now : Date)
    (tid k newk name email plan_type billing_cycle : String) (bend : Date)
    (hid : ∀ t ∈ db.tenants, t.id ≠ tid)
    (hk : ∀ t ∈ db.tenants, t.api_key ≠ hash_api_key k)
    (hnewk2 : ∀ t ∈ db.tenants, t.api_key ≠ hash_api_key newk)
    (hkk : k ≠ newk)
    (hcyc : get_next_billing_date now billing_cycle = Except.ok bend) :
    ∃ db1 : DB,
      (tenantpy_create_tenant db now tid k name email plan_type billing_cycle).1
        = (db1, none) ∧
      (∃ r, tenantpy_get_tenant_by_api_key db1 k = some r ∧ r.id = tid) ∧
      tenantpy_get_tenant_by_api_key (regenerate_api_key db1 now tid newk).1 k
        = none ∧
      (∃ r2, tenantpy_get_tenant_by_api_key
          (regenerate_api_key db1 now tid newk).1 newk = some r2 ∧ r2.id = tid) := by
  refine ⟨{ db with tenants := db.tenants ++
    [{ id := tid, name := name, email := email, api_key := hash_api_key k,
       plan_type := plan_type, billing_cycle := billing_cycle, usage_count := 0,
       rate_limit := (PLAN_LIMITS plan_type).rate_limit, created_at := now,
       updated_at := none, billing_start := some now, billing_end := some bend,
       last_reset := some now, subscription_status := "active" }] }, ?_, ?_, ?_, ?_⟩
  · simp only [tenantpy_create_tenant, tenantpy_initialize_tenant_billing, hcyc]
    rw [init_map_append db.tenants tid now bend _ hid rfl]
  · exact ⟨_, tenantpy_resolve_last db.tenants _ db k hk (fun t ht => hid t ht) rfl, rfl⟩
  · have hreg : (regenerate_api_key { db with tenants := db.tenants ++
        [{ id := tid, name := name, email := email, api_key := hash_api_key k,
           plan_type := plan_type, billing_cycle := billing_cycle, usage_count := 0,
           rate_limit := (PLAN_LIMITS plan_type).rate_limit, created_at := now,
           updated_at := none, billing_start := some now, billing_end := some bend,
           last_reset := some now, subscription_status := "active" }] } now tid newk).1
        = { db with tenants := db.tenants ++
        [{ id := tid, name := name, email := email, api_key := hash_api_key newk,
           plan_type := plan_type, billing_cycle := billing_cycle, usage_count := 0,
           rate_limit := (PLAN_LIMITS plan_type).rate_limit, created_at := now,
           updated_at := some now, billing_start := some now, billing_end := some bend,
           last_reset := some now, subscription_status := "active" }] } := by
      simp only [regenerate_api_key]
      rw [regen_map_append db.tenants tid now (hash_api_key newk) _ hid rfl]
    rw [hreg]
    refine tenantpy_resolve_none _ _ ?_
    intro t ht
    rcases List.mem_append.1 ht with h1 | h1
    · exact hk t h1
    · have h2 := List.mem_singleton.1 h1
      subst h2
      intro heq
      exact hkk (hash_api_key_injective k newk heq.symm)
  · have hreg : (regenerate_api_key { db with tenants := db.tenants ++
        [{ id := tid, name := name, email := email, api_key := hash_api_key k,
           plan_type := plan_type, billing_cycle := billing_cycle, usage_count := 0,
           rate_limit := (PLAN_LIMITS plan_type).rate_limit, created_at := now,
           updated_at := none, billing_start := some now, billing_end := some bend,
           last_reset := some now, subscription_status := "active" }] } now tid newk).1
        = { db with tenants := db.tenants ++
        [{ id := tid, name := name, email := email, api_key := hash_api_key newk,
           plan_type := plan_type, billing_cycle := billing_cycle, usage_count := 0,
           rate_limit := (PLAN_LIMITS plan_type).rate_limit, created_at := now,
           updated_at := some now, billing_start := some now, billing_end := some bend,
           last_reset := some now, subscription_status := "active" }] } := by
      simp only [regenerate_api_key]
      rw [regen_map_append db.tenants tid now (hash_api_key newk) _ hid rfl]
    rw [hreg]
    exact ⟨_, tenantpy_resolve_last db.tenants _ db newk
      (fun t ht => hnewk2 t ht) (fun t ht => hid t ht) rfl, rfl⟩

/-- Witness for C8: on an empty database, create tenant `t1` with credential
`aseo_a`, then rotate to `aseo_b`: `aseo_a` resolves to `t1` before rotation
and to null after, while `aseo_b` resolves to `t1`. -/
theorem issue_resolve_rotate_roundtrip_witness :
    ("aseo_a" : String) ≠ "aseo_b" ∧
    (∃ db1 : DB,
      (tenantpy_create_tenant emptyDB ⟨2024, 1, 10⟩ "t1" "aseo_a"
        "A" "a@x" "free" "monthly").1 = (db1, none) ∧
      (∃ r, tenantpy_get_tenant_by_api_key db1 "aseo_a" = some r ∧ r.id = "t1") ∧
      tenantpy_get_tenant_by_api_key
        (regenerate_api_key db1 ⟨2024, 1, 10⟩ "t1" "aseo_b").1 "aseo_a" = none ∧
      (∃ r2, tenantpy_get_tenant_by_api_key
          (regenerate_api_key db1 ⟨2024, 1, 10⟩ "t1" "aseo_b").1 "aseo_b"
        = some r2 ∧ r2.id = "t1")) := by
  refine ⟨by decide, issue_resolve_rotate_roundtrip emptyDB ⟨2024, 1, 10⟩ "t1"
    "aseo_a" "aseo_b" "A" "a@x" "free" "monthly" ⟨2024, 2, 10⟩
    (by intro t ht; cases ht) (by intro t ht; cases ht)
    (by intro t ht; cases ht) (by decide) rfl⟩

/-- `UPDATE sites SET status = ...` touches only the matching site's status
and no other table. -/
theorem set_site_status_spec (db : DB) (sid st : String) :
    (∀ s ∈ (set_site_status db sid st).sites, s.id = sid → s.status = st) ∧
    (set_site_status db sid st).audits = db.audits ∧
    (set_site_status db sid st).usage_logs = db.usage_logs := by
  refine ⟨?_, rfl, rfl⟩
  intro s hs hseq
  rcases List.mem_map.1 hs with ⟨s0, _h0, rfl⟩
  by_cases h : s0.id == sid
  · simp [h]
  · rw [if_neg h] at hseq ⊢
    exact absurd (beq_iff_eq.mpr hseq) h

/-- The loop of `Crawler.crawl` exits once the guard fails. -/
theorem crawl_step_none_of_guard (web : Web) (domain : String) (cap : Nat)
    (pick : List Url → Nat) (s : CrawlState)
    (h : s.to_visit.isEmpty = true ∨ cap ≤ s.results.length) :
    crawl_step web domain cap pick s = none := by
  simp only [crawl_step]
  rw [if_pos (by simpa using h)]

/-- A state failing the loop guard is a fixed point of the loop. -/
theorem crawl_loop_stuck (web : Web) (domain : String) (cap : Nat)
    (pick : List Url → Nat) (fuel : Nat) (s : CrawlState)
    (h : s.to_visit.isEmpty = true ∨ cap ≤ s.results.length) :
    crawl_loop web domain cap pick fuel s = s := by
  cases fuel with
  | zero => rfl
  | succ n =>
    simp only [crawl_loop]
    rw [crawl_step_none_of_guard web domain cap pick s h]

/-- When fetching the start URL raises (it is outside the reachable web),
the crawl records no page at all: the one pending URL is popped, the fetch
error is caught and skipped, and the frontier is empty. -/
theorem crawl_results_nil (web : Web) (start : Url) (cap fuel : Nat)
    (pick : List Url → Nat)
    (hw : web.find? (fun p => p.1 == start) = none) :
    (crawl web start cap pick fuel).results = [] := by
  cases fuel with
  | zero => rfl
  | succ n =>
    unfold crawl
    simp only [crawl_loop]
    by_cases hcap : cap ≤ 0
    · rw [crawl_step_none_of_guard web start.host cap pick
        { visited := [], results := [], to_visit := [start] } (Or.inr hcap)]
    · have hstep : crawl_step web start.host cap pick
          { visited := [], results := [], to_visit := [start] } =
          some { visited := [start], results := [], to_visit := [] } := by
        have hi : pick [start] % ([start] : List Url).length = 0 :=
          Nat.mod_one (pick [start])
        simp only [crawl_step, hi]
        rw [if_neg (by simp [hcap])]
        simp [hw]
      rw [hstep]
      show (crawl_loop web start.host cap pick n
        { visited := [start], results := [], to_visit := [] }).results = []
      rw [crawl_loop_stuck web start.host cap pick n
        { visited := [start], results := [], to_visit := [] } (Or.inl rfl)]

/-- C9: if the crawler's fetch of the start URL raises, `run_audit` leaves
the site `failed`, persists no audit row, and records no usage event (in
particular none of action `audit_completed`); the modelled task is a total
function, so nothing propagates to the HTTP call that queued it.  The path
runs through the spec-modelled `SEOAnalyzer.analyze`, which raises on the
empty page list the crawler returns (the crawler itself catches the fetch
error). -/
theorem run_audit_fetch_failure_marks_failed (db : DB) (now : Date) (web : Web)
    (pick : List Url → Nat) (fuel : Nat) (audit_id log_id site_id : String)
    (url : Url) (tenant_id : String)
    (hfail : web.find? (fun p => p.1 == url) = none) :
    (∀ s ∈ (run_audit db now web pick fuel audit_id log_id site_id url tenant_id).sites,
        s.id = site_id → s.status = "failed") ∧
    (run_audit db now web pick fuel audit_id log_id site_id url tenant_id).audits
      = db.audits ∧
    (run_audit db now web pick fuel audit_id log_id site_id url tenant_id).usage_logs
      = db.usage_logs := by
  have hpages : (crawl web url 50 pick fuel).results = [] :=
    crawl_results_nil web url 50 fuel pick hfail
  unfold run_audit
  rcases hcr : check_rate_limit db now tenant_id with e | ⟨allowed, info⟩
  · exact set_site_status_spec db site_id "failed"
  · cases allowed with
    | false =>
      simp only [Bool.not_false, if_true]
      exact set_site_status_spec db site_id "failed"
    | true =>
      simp only [Bool.not_true, hpages, SEOAnalyzer_analyze,
        List.isEmpty_nil, if_true]
      rw [if_neg (by simp)]
      exact ⟨(set_site_status_spec _ site_id "failed").1,
        ((set_site_status_spec _ site_id "failed").2.1).trans
          ((set_site_status_spec db site_id "running").2.1),
        ((set_site_status_spec _ site_id "failed").2.2).trans
          ((set_site_status_spec db site_id "running").2.2)⟩

/-- The site queued for the C9 witness audit. -/
def c9Site : SiteRow :=
  { id := "s1", tenant_id := "t1", url_host := "e.test", url_path := "/",
    name := "e", created_at := ⟨2024, 1, 10⟩, status := "pending",
    last_audit := none, last_score := none, audit_count := 0 }

/-- The C9 witness state: one tenant, one pending site, an unreachable web. -/
def c9DB : DB := { emptyDB with tenants := [s1Tenant], sites := [c9Site] }

/-- Witness for C9: auditing `https://e.test/` when every fetch raises
leaves site `s1` failed, with the audit and usage-log tables untouched. -/
theorem run_audit_fetch_failure_marks_failed_witness :
    (∀ s ∈ (run_audit c9DB ⟨2024, 1, 20⟩ [] pickFIFO 20 "a1" "l1" "s1" urlA "t1").sites,
        s.id = "s1" → s.status = "failed") ∧
    (run_audit c9DB ⟨2024, 1, 20⟩ [] pickFIFO 20 "a1" "l1" "s1" urlA "t1").audits
      = c9DB.audits ∧
    (run_audit c9DB ⟨2024, 1, 20⟩ [] pickFIFO 20 "a1" "l1" "s1" urlA "t1").usage_logs
      = c9DB.usage_logs :=
  run_audit_fetch_failure_marks_failed c9DB ⟨2024, 1, 20⟩ [] pickFIFO 20
    "a1" "l1" "s1" urlA "t1" rfl
